import Mathlib

/-!
Verification of the sliding-window rate limiter and the generation
orchestrator of the portrait-generator application (src/index.tsx),
as a shallow embedding in Lean.

The embedding has two levels:

* a JSON level modelling `loadRateLimitData` (src/index.tsx lines 119-141),
  which reads the raw stored value, parses it, sorts a parsed array with the
  comparator `(a, b) => a - b`, filters entries by age, and persists the
  cleaned list back;
* an application level modelling `handleGenerationClick`,
  `startGenerationProcess`, `generateSingleView`, `resetUI` and the
  file-upload success path as pure functions on an explicit state, emitting
  an event trace (store writes, remote calls, status transitions).

JavaScript numbers are modelled as integers (the timestamps the program
itself writes are integer epoch milliseconds); NaN is modelled as `none`
in the numeric-coercion function `toNumber`.  String-to-number coercion is
modelled for integer-literal strings (the blank string coerces to 0, a
non-numeric string to NaN); arrays and objects are modelled as coercing to
NaN.  `Array.prototype.sort` with the comparator `(a, b) => a - b` is
modelled as insertion sort keyed on `toNumber`, with a comparator result of
NaN treated as "equal" (the ECMA-262 sort order is implementation-defined
for inconsistent comparators; on all-number arrays, on which the sortedness
theorems below are stated, every correct sort agrees).
-/

namespace PortraitGen

/-- Rate-limit window in milliseconds: 10 minutes (src/index.tsx line 51). -/
def RATE_LIMIT_WINDOW_MS : Int := 10 * 60 * 1000

/-- Maximum admitted generations per window (src/index.tsx line 52). -/
def RATE_LIMIT_MAX_GENERATIONS : Nat := 5

/-- Attempt budget of the retry loop in generateSingleView (src/index.tsx line 479). -/
def MAX_ATTEMPTS : Nat := 5

/-- Parsed JSON values, as produced by JSON.parse on the stored string.
Numbers are modelled as integers; objects are collapsed to one constructor,
since only their numeric coercion (NaN) matters to the modelled code. -/
inductive JVal where
  | null
  | bool (b : Bool)
  | num (n : Int)
  | str (s : String)
  | arr (elems : List JVal)
  | obj

/-- JavaScript ToNumber coercion, determinized: `none` stands for NaN.
`null` coerces to 0, booleans to 0/1, a blank string to 0, an
integer-literal string to its value; arrays and objects are modelled as
NaN (exact JS coerces some of them to numbers, but no theorem below
depends on those cases). -/
def toNumber : JVal → Option Int
  | .null => some 0
  | .bool b => some (if b then 1 else 0)
  | .num n => some n
  | .str s => if s.trim = "" then some 0 else s.trim.toInt?
  | .arr _ => none
  | .obj => none

/-- Comparator order of `sort((a, b) => a - b)`: `jsLe a b` holds when the
sort keeps `a` before `b`.  When either coercion is NaN the comparator
result is treated as 0 (equal), so no swap happens. -/
def jsLe (a b : JVal) : Bool :=
  match toNumber a, toNumber b with
  | some x, some y => decide (x ≤ y)
  | _, _ => true

/-- Insertion step of the modelled sort. -/
def jsInsert (a : JVal) : List JVal → List JVal
  | [] => [a]
  | b :: l => if jsLe a b then a :: b :: l else b :: jsInsert a l

/-- The modelled `timestamps.sort((a, b) => a - b)` (src/index.tsx line 129). -/
def jsSort : List JVal → List JVal
  | [] => []
  | a :: l => jsInsert a (jsSort l)

/-- The modelled `.filter(ts => (now - ts) < this.RATE_LIMIT_WINDOW_MS)`
(src/index.tsx line 130): an entry is kept exactly when its numeric
coercion is a number whose age is within the window (a NaN age compares
false). -/
def jsFilterWindow (now : Int) (l : List JVal) : List JVal :=
  l.filter fun t =>
    match toNumber t with
    | some x => decide (now - x < RATE_LIMIT_WINDOW_MS)
    | none => false

/-- The raw content of the localStorage key: absent
(`getItem` returned null), malformed (JSON.parse throws), or a parsed
JSON value. -/
inductive StoredValue where
  | absent
  | malformed
  | json (v : JVal)

/-- The in-memory timestamp list computed by loadRateLimitData
(src/index.tsx lines 119-137): absent or malformed data, and parsed data
that is not an array, give the empty list; an array is sorted with the
numeric comparator and filtered by age. -/
def loadRateLimitData (stored : StoredValue) (now : Int) : List JVal :=
  match stored with
  | .absent => []
  | .malformed => []
  | .json (.arr ts) => jsFilterWindow now (jsSort ts)
  | .json _ => []

/-- The value saveTimestamps writes back right after the load
(src/index.tsx line 138): the cleaned list, serialized. -/
def loadPersisted (stored : StoredValue) (now : Int) : StoredValue :=
  .json (.arr (loadRateLimitData stored now))

/-- The integer-level content of the load: sort ascending, then keep the
entries whose age is within the window. -/
def pruneTimestamps (l : List Int) (now : Int) : List Int :=
  (List.insertionSort (· ≤ ·) l).filter fun t =>
    decide (now - t < RATE_LIMIT_WINDOW_MS)

theorem jsInsert_map_num (a : Int) (l : List Int) :
    jsInsert (JVal.num a) (l.map JVal.num) =
      (List.orderedInsert (· ≤ ·) a l).map JVal.num := by
  induction l with
  | nil => rfl
  | cons b l ih =>
      simp only [List.map, jsInsert, List.orderedInsert, jsLe, toNumber]
      by_cases h : a ≤ b
      · simp [h]
      · simp [h, ih]

theorem jsSort_map_num (l : List Int) :
    jsSort (l.map JVal.num) = (List.insertionSort (· ≤ ·) l).map JVal.num := by
  induction l with
  | nil => rfl
  | cons a l ih =>
      simp only [List.map, jsSort, List.insertionSort, ih, jsInsert_map_num]

theorem jsFilterWindow_map_num (now : Int) (l : List Int) :
    jsFilterWindow now (l.map JVal.num) =
      (l.filter fun t => decide (now - t < RATE_LIMIT_WINDOW_MS)).map JVal.num := by
  induction l with
  | nil => rfl
  | cons a l ih =>
      simp only [List.map, jsFilterWindow, List.filter, toNumber]
      by_cases h : now - a < RATE_LIMIT_WINDOW_MS
      · simpa [h] using ih
      · simpa [h] using ih

theorem loadRateLimitData_num_eq (l : List Int) (now : Int) :
    loadRateLimitData (.json (.arr (l.map JVal.num))) now =
      (pruneTimestamps l now).map JVal.num := by
  simp only [loadRateLimitData, pruneTimestamps, jsSort_map_num,
    jsFilterWindow_map_num]

theorem pruneTimestamps_sorted (l : List Int) (now : Int) :
    (pruneTimestamps l now).Sorted (· ≤ ·) :=
  (List.sorted_insertionSort (· ≤ ·) l).filter _

theorem pruneTimestamps_mem (l : List Int) (now : Int) :
    ∀ t ∈ pruneTimestamps l now, now - t < RATE_LIMIT_WINDOW_MS := by
  intro t ht
  have := (List.mem_filter.mp ht).2
  exact of_decide_eq_true this

theorem pruneTimestamps_length_le (l : List Int) (now : Int) :
    (pruneTimestamps l now).length ≤ l.length := by
  calc (pruneTimestamps l now).length
      ≤ (List.insertionSort (· ≤ ·) l).length := List.length_filter_le _ _
    _ = l.length := List.length_insertionSort _ l

/-- C1: for every stored timestamp list and every current time, after
loadRateLimitData every entry remaining in the in-memory log has age
strictly below the 10-minute window, the entries are sorted ascending,
and exactly this cleaned log is persisted back to the store. -/
theorem load_prunes_sorts_and_persists (l : List Int) (now : Int) :
    loadRateLimitData (.json (.arr (l.map JVal.num))) now =
        (pruneTimestamps l now).map JVal.num ∧
      (pruneTimestamps l now).Sorted (· ≤ ·) ∧
      (∀ t ∈ pruneTimestamps l now, now - t < RATE_LIMIT_WINDOW_MS) ∧
      loadPersisted (.json (.arr (l.map JVal.num))) now =
        .json (.arr ((pruneTimestamps l now).map JVal.num)) :=
  ⟨loadRateLimitData_num_eq l now, pruneTimestamps_sorted l now,
    pruneTimestamps_mem l now, by
      simp [loadPersisted, loadRateLimitData_num_eq l now]⟩

/-- C1 witness: the load at time 600001 over the stored list
[600000, 1] keeps 600000, drops the expired 1, and persists the result. -/
theorem load_prunes_sorts_and_persists_witness :
    loadRateLimitData (.json (.arr ([600000, 1].map JVal.num))) 600001 =
        (pruneTimestamps [600000, 1] 600001).map JVal.num ∧
      (pruneTimestamps [600000, 1] 600001).Sorted (· ≤ ·) ∧
      (∀ t ∈ pruneTimestamps [600000, 1] 600001,
        600001 - t < RATE_LIMIT_WINDOW_MS) ∧
      loadPersisted (.json (.arr ([600000, 1].map JVal.num))) 600001 =
        .json (.arr ((pruneTimestamps [600000, 1] 600001).map JVal.num)) :=
  load_prunes_sorts_and_persists [600000, 1] 600001

/-- C8 counterexample: the stored array [null] is not a list of numbers,
yet at time 1000 the load does not treat it as empty: null coerces to 0,
its age 1000 is within the window, so it is kept and persisted back as a
non-empty, non-numeric list. -/
theorem load_keeps_nonnumber_entry :
    loadRateLimitData (.json (.arr [JVal.null])) 1000 = [JVal.null] ∧
      [JVal.null] ≠ ([] : List JVal) ∧
      loadPersisted (.json (.arr [JVal.null])) 1000 = .json (.arr [JVal.null]) :=
  ⟨rfl, by simp, rfl⟩

/-- C8 (amended): loadRateLimitData never raises; an absent value,
malformed JSON, or a parsed value that is not an array is treated as the
empty log and the empty log is persisted back; a stored array, however,
is not reset to empty: it is sorted and filtered elementwise by numeric
coercion, so non-number elements whose coerced age lies within the window
survive. -/
theorem load_fails_soft (now : Int) (v : JVal) (h : ∀ ts, v ≠ JVal.arr ts) :
    loadRateLimitData .absent now = [] ∧
      loadRateLimitData .malformed now = [] ∧
      loadRateLimitData (.json v) now = [] ∧
      loadPersisted .absent now = .json (.arr []) ∧
      loadPersisted .malformed now = .json (.arr []) ∧
      loadPersisted (.json v) now = .json (.arr []) ∧
      (∀ ts, loadRateLimitData (.json (.arr ts)) now =
        jsFilterWindow now (jsSort ts)) := by
  have hv : loadRateLimitData (.json v) now = [] := by
    cases v with
    | arr ts => exact absurd rfl (h ts)
    | null => rfl
    | bool b => rfl
    | num n => rfl
    | str s => rfl
    | obj => rfl
  exact ⟨rfl, rfl, hv, rfl, rfl, by simp [loadPersisted, hv], fun _ => rfl⟩

/-- C8 witness: a stored bare number (not an array) at time 0 is reset to
the empty log. -/
theorem load_fails_soft_witness :
    loadRateLimitData .absent 0 = [] ∧
      loadRateLimitData .malformed 0 = [] ∧
      loadRateLimitData (.json (.num 7)) 0 = [] ∧
      loadPersisted .absent 0 = .json (.arr []) ∧
      loadPersisted .malformed 0 = .json (.arr []) ∧
      loadPersisted (.json (.num 7)) 0 = .json (.arr []) ∧
      (∀ ts, loadRateLimitData (.json (.arr ts)) 0 =
        jsFilterWindow 0 (jsSort ts)) :=
  load_fails_soft 0 (.num 7) (fun _ hc => JVal.noConfusion hc)

/-- The five UI states passed to updateUIState (src/index.tsx line 282). -/
inductive Status where
  | idle
  | loading
  | success
  | failure
  | terminating
  deriving DecidableEq, Repr

/-- The mutable application state of class PortraitGeneratorApp that the
verified claims read or write (src/index.tsx lines 43-54).  `store` is
the decoded numeric array held by localStorage under the timestamp key:
corruption handling of the raw stored string is verified separately at
the JSON level above, and the application itself only ever persists
numeric arrays.  `status` is the argument of the last updateUIState
call. -/
structure AppState where
  generationTimestamps : List Int
  store : List Int
  failureCount : Nat
  isGenerationTerminated : Bool
  successfulImageData : Option String
  status : Status
  uploadedBase64Image : Option String
  isCartoonMode : Bool
  deriving DecidableEq, Repr

/-- Outcome of one remote generation call (src/index.tsx lines 490-515):
either an image payload was extracted from the response, or the call threw
or returned no payload (both paths land in the catch block and consume the
attempt). -/
inductive GenOutcome where
  | payload (data : String)
  | failure
  deriving DecidableEq, Repr

/-- The external world of one click: the remote generation capability and
the validation capability, indexed by attempt number, and the asynchronous
terminate-button input.  `userCancel n` tells whether the user has clicked
terminate (setting isGenerationTerminated, src/index.tsx line 99) before
the flag check of attempt `n`. -/
structure GenEnv where
  gen : Nat → GenOutcome
  verify : Nat → Bool
  userCancel : Nat → Bool

/-- Observable side effects, in program order: a localStorage write of the
timestamp array (saveTimestamps), a remote image-generation call, a remote
verifyImageMatch call, the quota alert, the please-upload alert, and a
status transition. -/
inductive Event where
  | setItem (l : List Int)
  | genCall (attempt : Nat)
  | verifyCall (attempt : Nat)
  | alertQuota
  | alertNoImage
  | setStatus (st : Status)
  deriving DecidableEq, Repr

/-- The record returned by generateSingleView (src/index.tsx line 474). -/
structure GenResult where
  success : Bool
  base64Data : Option String
  terminated : Bool
  deriving DecidableEq, Repr

/-- Result and event trace of the retry loop. -/
structure RunOut where
  result : GenResult
  events : List Event
  deriving DecidableEq, Repr

/-- The retry loop of generateSingleView (src/index.tsx lines 481-516),
by remaining budget and current attempt number (entered with budget
MAX_ATTEMPTS at attempt 1).  Each iteration first reads
isGenerationTerminated (its session-start value `startFlag`, or set
meanwhile by the terminate click modelled by `env.userCancel`) and exits
as terminated; otherwise it issues the generation call; a payload
short-circuits validation in cartoon mode (`isCartoonMode ||`), else
verifyImageMatch decides between success and consuming the attempt; a
failed call consumes the attempt. -/
def attemptLoop (env : GenEnv) (cartoon startFlag : Bool) :
    Nat → Nat → RunOut
  | 0, _ => ⟨⟨false, none, false⟩, []⟩
  | remaining + 1, attempt =>
    if startFlag || env.userCancel attempt then
      ⟨⟨false, none, true⟩, [.setStatus .terminating]⟩
    else
      match env.gen attempt with
      | .payload data =>
          if cartoon then
            ⟨⟨true, some data, false⟩, [.genCall attempt]⟩
          else if env.verify attempt then
            ⟨⟨true, some data, false⟩, [.genCall attempt, .verifyCall attempt]⟩
          else
            let rest := attemptLoop env cartoon startFlag remaining (attempt + 1)
            ⟨rest.result, .genCall attempt :: .verifyCall attempt :: rest.events⟩
      | .failure =>
          let rest := attemptLoop env cartoon startFlag remaining (attempt + 1)
          ⟨rest.result, .genCall attempt :: rest.events⟩

/-- State, returned record, and event trace of one generateSingleView
invocation. -/
structure SessionOutput where
  state : AppState
  result : GenResult
  events : List Event
  deriving DecidableEq, Repr

/-- The retry loop as entered by generateSingleView: budget MAX_ATTEMPTS,
first attempt numbered 1, cartoon flag and cancellation flag read from the
state. -/
def sessionRun (env : GenEnv) (s : AppState) : RunOut :=
  attemptLoop env s.isCartoonMode s.isGenerationTerminated MAX_ATTEMPTS 1

/-- generateSingleView (src/index.tsx lines 474-531): switch to loading,
run the retry loop, then classify.  On termination the flag was observed
true, so it is true in the final state; on success the payload is stored;
on a rejected run the failure counter is incremented unless the session
is a regeneration.  (A terminate click that arrives after the last flag
check mutates only the real flag and is observed by no later read in the
session, so the model keeps the session-start value on the non-terminated
exits.) -/
def generateSingleView (env : GenEnv) (isRegeneration : Bool)
    (s : AppState) : SessionOutput :=
  if (sessionRun env s).result.terminated then
    { state := { s with status := .terminating, isGenerationTerminated := true },
      result := (sessionRun env s).result,
      events := Event.setStatus .loading :: (sessionRun env s).events }
  else if (sessionRun env s).result.success then
    { state := { s with status := .success, successfulImageData := (sessionRun env s).result.base64Data },
      result := (sessionRun env s).result,
      events := Event.setStatus .loading :: (sessionRun env s).events ++ [Event.setStatus .success] }
  else
    { state := { s with status := .failure, failureCount := if isRegeneration then s.failureCount else s.failureCount + 1 },
      result := (sessionRun env s).result,
      events := Event.setStatus .loading :: (sessionRun env s).events ++ [Event.setStatus .failure] }

/-- State, optional session record (none when no session ran), and event
trace of one click. -/
structure ClickOutput where
  state : AppState
  result : Option GenResult
  events : List Event
  deriving DecidableEq, Repr

/-- The state writes startGenerationProcess performs before invoking the
retry loop (src/index.tsx lines 540-544): unset the cancellation flag,
zero the failure counter, clear the stored result. -/
def resetSessionState (s : AppState) : AppState :=
  { s with isGenerationTerminated := false, failureCount := 0, successfulImageData := none }

/-- startGenerationProcess (src/index.tsx lines 534-557): without an
uploaded image it alerts and returns; otherwise it unsets the
cancellation flag, zeroes the failure counter, clears the stored result,
and runs generateSingleView as an initial (non-regeneration) session. -/
def startGenerationProcess (env : GenEnv) (s : AppState) : ClickOutput :=
  match s.uploadedBase64Image with
  | none => { state := s, result := none, events := [Event.alertNoImage] }
  | some _ =>
      { state := (generateSingleView env false (resetSessionState s)).state,
        result := some (generateSingleView env false (resetSessionState s)).result,
        events := (generateSingleView env false (resetSessionState s)).events }

/-- The two kinds of user request (src/index.tsx lines 93-94). -/
inductive ClickType where
  | generate
  | regenerate
  deriving DecidableEq, Repr

/-- The state right after the load inside handleGenerationClick
(src/index.tsx line 148): in-memory log and store both hold the pruned
list. -/
def loadedState (s : AppState) (nowLoad : Int) : AppState :=
  { s with generationTimestamps := pruneTimestamps s.store nowLoad, store := pruneTimestamps s.store nowLoad }

/-- The state after an admitted attempt pushed and persisted the
push-time timestamp (src/index.tsx lines 155-156). -/
def admittedState (s : AppState) (nowLoad nowPush : Int) : AppState :=
  { s with generationTimestamps := pruneTimestamps s.store nowLoad ++ [nowPush], store := pruneTimestamps s.store nowLoad ++ [nowPush] }

/-- The dispatch at the end of handleGenerationClick (src/index.tsx lines
160-164): generate goes through startGenerationProcess, regenerate calls
generateSingleView directly with isRegeneration = true. -/
def clickDispatch (ty : ClickType) (env : GenEnv) (s : AppState) : ClickOutput :=
  match ty with
  | .generate => startGenerationProcess env s
  | .regenerate =>
      { state := (generateSingleView env true s).state,
        result := some (generateSingleView env true s).result,
        events := (generateSingleView env true s).events }

/-- handleGenerationClick (src/index.tsx lines 147-165): reload and prune
the persisted log (which re-persists the pruned list), deny with an alert
when the pruned log has reached the limit, otherwise append the push-time
timestamp, persist, and dispatch.  `nowLoad` and `nowPush` are the two
Date.now() reads (lines 121 and 155). -/
def handleGenerationClick (ty : ClickType) (env : GenEnv)
    (nowLoad nowPush : Int) (s : AppState) : ClickOutput :=
  if RATE_LIMIT_MAX_GENERATIONS ≤ (pruneTimestamps s.store nowLoad).length then
    { state := loadedState s nowLoad, result := none,
      events := [Event.setItem (pruneTimestamps s.store nowLoad), Event.alertQuota] }
  else
    { state := (clickDispatch ty env (admittedState s nowLoad nowPush)).state,
      result := (clickDispatch ty env (admittedState s nowLoad nowPush)).result,
      events := Event.setItem (pruneTimestamps s.store nowLoad) ::
        Event.setItem (pruneTimestamps s.store nowLoad ++ [nowPush]) ::
        (clickDispatch ty env (admittedState s nowLoad nowPush)).events }

/-- resetUI, the clear action (src/index.tsx lines 345-365): the state
fields it writes. -/
def resetUI (s : AppState) : AppState :=
  { s with uploadedBase64Image := none, successfulImageData := none, isCartoonMode := false, status := Status.idle, failureCount := 0 }

/-- The successful branch of handleFile's reader.onload (src/index.tsx
lines 371-383): store the uploaded payload and zero the failure
counter. -/
def handleFileLoaded (data : String) (s : AppState) : AppState :=
  { s with uploadedBase64Image := some data, failureCount := 0 }

/-- Recognizer of remote generation-call events. -/
def isGenCallEvent : Event → Bool
  | .genCall _ => true
  | _ => false

/-- Recognizer of remote validation-call events. -/
def isVerifyCallEvent : Event → Bool
  | .verifyCall _ => true
  | _ => false

/-- Number of remote generation calls in a trace. -/
def countGenCalls (tr : List Event) : Nat :=
  tr.countP isGenCallEvent

/-- Number of remote validation calls in a trace. -/
def countVerifyCalls (tr : List Event) : Nat :=
  tr.countP isVerifyCallEvent

/-- The admission kernel of handleGenerationClick, acting on the store
alone: prune at load time, then either deny (limit reached) or append the
push-time timestamp. -/
def admissionStep (st : List Int) (nowLoad nowPush : Int) : Bool × List Int :=
  let pruned := pruneTimestamps st nowLoad
  if RATE_LIMIT_MAX_GENERATIONS ≤ pruned.length then (false, pruned)
  else (true, pruned ++ [nowPush])

/-- The store after a sequence of clicks with arbitrary clock values. -/
def runClicks (st : List Int) : List (Int × Int) → List Int
  | [] => st
  | (nL, nP) :: rest => runClicks (admissionStep st nL nP).2 rest

/-- An environment whose generation calls all fail. -/
def failEnv : GenEnv :=
  { gen := fun _ => .failure, verify := fun _ => false, userCancel := fun _ => false }

/-- An environment whose first generation call returns a payload that
validates. -/
def okEnv : GenEnv :=
  { gen := fun _ => .payload "out", verify := fun _ => true, userCancel := fun _ => false }

/-- An environment in which the user has already clicked terminate. -/
def cancelEnv : GenEnv :=
  { gen := fun _ => .payload "out", verify := fun _ => true, userCancel := fun _ => true }

/-- A quiescent state with an uploaded image and an empty log. -/
def sampleState : AppState :=
  { generationTimestamps := [], store := [], failureCount := 0,
    isGenerationTerminated := false, successfulImageData := none,
    status := .idle, uploadedBase64Image := some "img", isCartoonMode := false }

/-- The sample state with cartoon mode enabled. -/
def cartoonState : AppState :=
  { sampleState with isCartoonMode := true }

theorem attemptLoop_genCalls_le (env : GenEnv) (c f : Bool) :
    ∀ remaining attempt,
      countGenCalls (attemptLoop env c f remaining attempt).events ≤ remaining := by
  intro remaining
  induction remaining with
  | zero =>
      intro attempt
      simp [attemptLoop, countGenCalls]
  | succ n ih =>
      intro attempt
      have hr := ih (attempt + 1)
      simp only [countGenCalls] at hr
      rcases h : (f || env.userCancel attempt) with _ | _
      · cases hg : env.gen attempt with
        | payload data =>
            cases hc : c with
            | false =>
                cases hv : env.verify attempt with
                | false =>
                    rw [hc] at hr
                    simp [attemptLoop, h, hg, hc, hv, countGenCalls,
                      List.countP_cons, isGenCallEvent]
                    omega
                | true =>
                    simp [attemptLoop, h, hg, hc, hv, countGenCalls,
                      List.countP_cons, isGenCallEvent]
            | true =>
                simp [attemptLoop, h, hg, hc, countGenCalls, List.countP_cons,
                  isGenCallEvent]
        | failure =>
            simp [attemptLoop, h, hg, countGenCalls, List.countP_cons,
              isGenCallEvent]
            omega
      · simp [attemptLoop, h, countGenCalls, List.countP_cons, isGenCallEvent]

theorem attemptLoop_cartoon_no_verify (env : GenEnv) (f : Bool) :
    ∀ remaining attempt,
      countVerifyCalls (attemptLoop env true f remaining attempt).events = 0 := by
  intro remaining
  induction remaining with
  | zero =>
      intro attempt
      simp [attemptLoop, countVerifyCalls]
  | succ n ih =>
      intro attempt
      rcases h : (f || env.userCancel attempt) with _ | _
      · cases hg : env.gen attempt with
        | payload data =>
            simp [attemptLoop, h, hg, countVerifyCalls, List.countP_cons,
              isVerifyCallEvent]
        | failure =>
            have hr := ih (attempt + 1)
            simp only [countVerifyCalls] at hr
            simp [attemptLoop, h, hg, countVerifyCalls, List.countP_cons,
              isVerifyCallEvent, hr]
      · simp [attemptLoop, h, countVerifyCalls, List.countP_cons,
          isVerifyCallEvent]

theorem attemptLoop_result_shape (env : GenEnv) (c f : Bool) :
    ∀ remaining attempt,
      ((attemptLoop env c f remaining attempt).result.terminated = true →
        (attemptLoop env c f remaining attempt).result.success = false ∧
        (attemptLoop env c f remaining attempt).result.base64Data = none) ∧
      ((attemptLoop env c f remaining attempt).result.success = true ↔
        ((attemptLoop env c f remaining attempt).result.base64Data).isSome = true) := by
  intro remaining
  induction remaining with
  | zero =>
      intro attempt
      simp [attemptLoop]
  | succ n ih =>
      intro attempt
      rcases h : (f || env.userCancel attempt) with _ | _
      · cases hg : env.gen attempt with
        | payload data =>
            cases hc : c with
            | false =>
                cases hv : env.verify attempt with
                | false =>
                    have hr := ih (attempt + 1)
                    rw [hc] at hr
                    simpa [attemptLoop, h, hg, hc, hv] using hr
                | true => simp [attemptLoop, h, hg, hc, hv]
            | true => simp [attemptLoop, h, hg, hc]
        | failure => simpa [attemptLoop, h, hg] using ih (attempt + 1)
      · simp [attemptLoop, h]

/-- When the cancellation flag is observed set at the first check, the
loop ends at once with the Terminated record and an empty call trace. -/
theorem attemptLoop_cancelled_first (env : GenEnv) (c f : Bool) (r a : Nat)
    (h : (f || env.userCancel a) = true) :
    attemptLoop env c f (r + 1) a =
      ⟨⟨false, none, true⟩, [.setStatus .terminating]⟩ := by
  simp [attemptLoop, h]

theorem generateSingleView_result_eq (env : GenEnv) (b : Bool) (s : AppState) :
    (generateSingleView env b s).result = (sessionRun env s).result := by
  unfold generateSingleView
  split
  · rfl
  · split <;> rfl

theorem generateSingleView_events_eq (env : GenEnv) (b : Bool) (s : AppState) :
    ∃ post : List Event,
      (generateSingleView env b s).events =
        Event.setStatus .loading :: (sessionRun env s).events ++ post ∧
      (∀ e ∈ post, isGenCallEvent e = false ∧ isVerifyCallEvent e = false) := by
  unfold generateSingleView
  split
  · exact ⟨[], by simp, by simp⟩
  · split
    · refine ⟨[Event.setStatus .success], by simp, ?_⟩
      intro e he
      simp only [List.mem_singleton] at he
      subst he
      exact ⟨rfl, rfl⟩
    · refine ⟨[Event.setStatus .failure], by simp, ?_⟩
      intro e he
      simp only [List.mem_singleton] at he
      subst he
      exact ⟨rfl, rfl⟩

theorem countGenCalls_session (env : GenEnv) (b : Bool) (s : AppState) :
    countGenCalls (generateSingleView env b s).events =
      countGenCalls (sessionRun env s).events := by
  obtain ⟨post, hpost, hno⟩ := generateSingleView_events_eq env b s
  have hz : post.countP isGenCallEvent = 0 := by
    rw [List.countP_eq_zero]
    intro e he
    simp [(hno e he).1]
  rw [hpost]
  simp [countGenCalls, List.countP_cons, List.countP_append, isGenCallEvent, hz]

theorem countVerifyCalls_session (env : GenEnv) (b : Bool) (s : AppState) :
    countVerifyCalls (generateSingleView env b s).events =
      countVerifyCalls (sessionRun env s).events := by
  obtain ⟨post, hpost, hno⟩ := generateSingleView_events_eq env b s
  have hz : post.countP isVerifyCallEvent = 0 := by
    rw [List.countP_eq_zero]
    intro e he
    simp [(hno e he).2]
  rw [hpost]
  simp [countVerifyCalls, List.countP_cons, List.countP_append, isVerifyCallEvent, hz]

/-- C5: one generateSingleView invocation issues at most MAX_ATTEMPTS
remote generation calls, and in cartoon mode it issues no validation
call at all. -/
theorem generateSingleView_call_bounds (env : GenEnv) (isRegen : Bool)
    (s : AppState) :
    countGenCalls (generateSingleView env isRegen s).events ≤ MAX_ATTEMPTS ∧
      (s.isCartoonMode = true →
        countVerifyCalls (generateSingleView env isRegen s).events = 0) := by
  constructor
  · rw [countGenCalls_session]
    exact attemptLoop_genCalls_le env s.isCartoonMode s.isGenerationTerminated
      MAX_ATTEMPTS 1
  · intro hc
    rw [countVerifyCalls_session]
    unfold sessionRun
    rw [hc]
    exact attemptLoop_cartoon_no_verify env s.isGenerationTerminated
      MAX_ATTEMPTS 1

/-- C5 witness: in cartoon mode with every call failing, the loop makes
at most five generation calls and no validation call. -/
theorem generateSingleView_call_bounds_witness :
    countGenCalls (generateSingleView failEnv false cartoonState).events ≤ MAX_ATTEMPTS ∧
      (cartoonState.isCartoonMode = true →
        countVerifyCalls (generateSingleView failEnv false cartoonState).events = 0) :=
  generateSingleView_call_bounds failEnv false cartoonState

/-- C6: when the cancellation flag is set before any attempt starts
(either left set in the state or set by the user before the first check),
generateSingleView returns the Terminated record having made zero
generation calls and zero validation calls. -/
theorem generateSingleView_cancelled_before_first (env : GenEnv)
    (isRegen : Bool) (s : AppState)
    (h : (s.isGenerationTerminated || env.userCancel 1) = true) :
    (generateSingleView env isRegen s).result =
        ⟨false, none, true⟩ ∧
      countGenCalls (generateSingleView env isRegen s).events = 0 ∧
      countVerifyCalls (generateSingleView env isRegen s).events = 0 := by
  have hrun : sessionRun env s =
      ⟨⟨false, none, true⟩, [.setStatus .terminating]⟩ := by
    unfold sessionRun
    exact attemptLoop_cancelled_first env s.isCartoonMode
      s.isGenerationTerminated 4 1 h
  refine ⟨?_, ?_, ?_⟩
  · rw [generateSingleView_result_eq, hrun]
  · rw [countGenCalls_session, hrun]
    simp [countGenCalls, isGenCallEvent]
  · rw [countVerifyCalls_session, hrun]
    simp [countVerifyCalls, isVerifyCallEvent]

/-- C6 witness: with the flag set by the user before the first check, the
session terminates with no remote call. -/
theorem generateSingleView_cancelled_before_first_witness :
    (generateSingleView cancelEnv false sampleState).result =
        ⟨false, none, true⟩ ∧
      countGenCalls (generateSingleView cancelEnv false sampleState).events = 0 ∧
      countVerifyCalls (generateSingleView cancelEnv false sampleState).events = 0 :=
  generateSingleView_cancelled_before_first cancelEnv false sampleState (by decide)

/-- C10: the record generateSingleView returns always satisfies the shape
invariant: a terminated record has success false and no payload, and
success holds exactly when a payload is present. -/
theorem generateSingleView_result_shape (env : GenEnv) (isRegen : Bool)
    (s : AppState) :
    ((generateSingleView env isRegen s).result.terminated = true →
      (generateSingleView env isRegen s).result.success = false ∧
      (generateSingleView env isRegen s).result.base64Data = none) ∧
    ((generateSingleView env isRegen s).result.success = true ↔
      ((generateSingleView env isRegen s).result.base64Data).isSome = true) := by
  rw [generateSingleView_result_eq]
  exact attemptLoop_result_shape env s.isCartoonMode s.isGenerationTerminated
    MAX_ATTEMPTS 1

/-- C10 witness: the shape invariant at a concrete rejected session. -/
theorem generateSingleView_result_shape_witness :
    ((generateSingleView failEnv false sampleState).result.terminated = true →
      (generateSingleView failEnv false sampleState).result.success = false ∧
      (generateSingleView failEnv false sampleState).result.base64Data = none) ∧
    ((generateSingleView failEnv false sampleState).result.success = true ↔
      ((generateSingleView failEnv false sampleState).result.base64Data).isSome = true) :=
  generateSingleView_result_shape failEnv false sampleState

theorem generateSingleView_state_parts (env : GenEnv) (b : Bool) (s : AppState) :
    (generateSingleView env b s).state.store = s.store ∧
      (generateSingleView env b s).state.generationTimestamps = s.generationTimestamps ∧
      (generateSingleView env b s).state.uploadedBase64Image = s.uploadedBase64Image := by
  unfold generateSingleView
  split
  · exact ⟨rfl, rfl, rfl⟩
  · split
    · exact ⟨rfl, rfl, rfl⟩
    · exact ⟨rfl, rfl, rfl⟩

theorem generateSingleView_failureCount (env : GenEnv) (b : Bool) (s : AppState) :
    (generateSingleView env b s).state.failureCount =
      if (sessionRun env s).result.success = false ∧
          (sessionRun env s).result.terminated = false
        then (if b = true then s.failureCount else s.failureCount + 1)
        else s.failureCount := by
  unfold generateSingleView
  rcases hterm : (sessionRun env s).result.terminated with _ | _
  · rcases hsucc : (sessionRun env s).result.success with _ | _
    · simp [hterm, hsucc]
    · simp [hterm, hsucc]
  · simp [hterm]

theorem startGenerationProcess_store (env : GenEnv) (s : AppState) :
    (startGenerationProcess env s).state.store = s.store := by
  cases hu : s.uploadedBase64Image with
  | none => simp [startGenerationProcess, hu]
  | some d =>
      simp only [startGenerationProcess, hu]
      rw [(generateSingleView_state_parts env false (resetSessionState s)).1]
      rfl

theorem clickDispatch_store (ty : ClickType) (env : GenEnv) (s : AppState) :
    (clickDispatch ty env s).state.store = s.store := by
  cases ty with
  | generate => exact startGenerationProcess_store env s
  | regenerate =>
      simp only [clickDispatch]
      exact (generateSingleView_state_parts env true s).1

theorem handleGenerationClick_store (ty : ClickType) (env : GenEnv)
    (nowLoad nowPush : Int) (s : AppState) :
    (handleGenerationClick ty env nowLoad nowPush s).state.store =
      (admissionStep s.store nowLoad nowPush).2 := by
  by_cases h : RATE_LIMIT_MAX_GENERATIONS ≤ (pruneTimestamps s.store nowLoad).length
  · simp [handleGenerationClick, admissionStep, h, loadedState]
  · simp only [handleGenerationClick, admissionStep, h, if_neg, ite_false]
    rw [clickDispatch_store]
    simp [admittedState, h]

theorem admissionStep_length (st : List Int) (nL nP : Int)
    (h : st.length ≤ RATE_LIMIT_MAX_GENERATIONS) :
    (admissionStep st nL nP).2.length ≤ RATE_LIMIT_MAX_GENERATIONS := by
  by_cases hadm : RATE_LIMIT_MAX_GENERATIONS ≤ (pruneTimestamps st nL).length
  · simpa [admissionStep, hadm] using
      le_trans (pruneTimestamps_length_le st nL) h
  · have hlt := Nat.lt_of_not_le hadm
    simp only [admissionStep, hadm, ite_false, if_neg, List.length_append,
      List.length_singleton]
    omega

theorem runClicks_length_le (clicks : List (Int × Int)) :
    ∀ st : List Int, st.length ≤ RATE_LIMIT_MAX_GENERATIONS →
      (runClicks st clicks).length ≤ RATE_LIMIT_MAX_GENERATIONS := by
  induction clicks with
  | nil => intro st h; exact h
  | cons c rest ih =>
      intro st h
      rcases c with ⟨nL, nP⟩
      exact ih _ (admissionStep_length st nL nP h)

/-- C2: the admission control never lets more than five in-window entries
coexist: the click keeps the store equal to the admission kernel's output;
an attempt is denied exactly when the freshly pruned log has reached the
limit; an admitted attempt appends exactly one timestamp to a log shorter
than the limit; and over any sequence of clicks with arbitrary clock
values, a store that starts within the limit stays within it, so at most
five entries of age below the window ever coexist. -/
theorem rateLimiter_admission_bound (s : AppState) (ty : ClickType)
    (env : GenEnv) (nowLoad nowPush now : Int) (clicks : List (Int × Int))
    (h : s.store.length ≤ RATE_LIMIT_MAX_GENERATIONS) :
    (handleGenerationClick ty env nowLoad nowPush s).state.store =
        (admissionStep s.store nowLoad nowPush).2 ∧
      ((admissionStep s.store nowLoad nowPush).1 = false ↔
        RATE_LIMIT_MAX_GENERATIONS ≤ (pruneTimestamps s.store nowLoad).length) ∧
      ((admissionStep s.store nowLoad nowPush).1 = true →
        (pruneTimestamps s.store nowLoad).length < RATE_LIMIT_MAX_GENERATIONS ∧
        (admissionStep s.store nowLoad nowPush).2 =
          pruneTimestamps s.store nowLoad ++ [nowPush]) ∧
      (runClicks s.store clicks).length ≤ RATE_LIMIT_MAX_GENERATIONS ∧
      ((runClicks s.store clicks).filter
          (fun t => decide (now - t < RATE_LIMIT_WINDOW_MS))).length ≤
        RATE_LIMIT_MAX_GENERATIONS := by
  refine ⟨handleGenerationClick_store ty env nowLoad nowPush s, ?_, ?_, ?_, ?_⟩
  · by_cases hadm : RATE_LIMIT_MAX_GENERATIONS ≤ (pruneTimestamps s.store nowLoad).length
    · simp [admissionStep, hadm]
    · simp [admissionStep, hadm]
  · intro hadm
    by_cases hle : RATE_LIMIT_MAX_GENERATIONS ≤ (pruneTimestamps s.store nowLoad).length
    · simp [admissionStep, hle] at hadm
    · exact ⟨Nat.lt_of_not_le hle, by simp [admissionStep, hle]⟩
  · exact runClicks_length_le clicks s.store h
  · exact le_trans (List.length_filter_le _ _) (runClicks_length_le clicks s.store h)

/-- C2 witness: from the empty store, a burst of six clicks at time 0
leaves at most five coexisting entries. -/
theorem rateLimiter_admission_bound_witness :
    (handleGenerationClick .generate failEnv 0 0 sampleState).state.store =
        (admissionStep sampleState.store 0 0).2 ∧
      ((admissionStep sampleState.store 0 0).1 = false ↔
        RATE_LIMIT_MAX_GENERATIONS ≤ (pruneTimestamps sampleState.store 0).length) ∧
      ((admissionStep sampleState.store 0 0).1 = true →
        (pruneTimestamps sampleState.store 0).length < RATE_LIMIT_MAX_GENERATIONS ∧
        (admissionStep sampleState.store 0 0).2 =
          pruneTimestamps sampleState.store 0 ++ [0]) ∧
      (runClicks sampleState.store
          [(0, 0), (0, 0), (0, 0), (0, 0), (0, 0), (0, 0)]).length ≤
        RATE_LIMIT_MAX_GENERATIONS ∧
      ((runClicks sampleState.store
            [(0, 0), (0, 0), (0, 0), (0, 0), (0, 0), (0, 0)]).filter
          (fun t => decide (0 - t < RATE_LIMIT_WINDOW_MS))).length ≤
        RATE_LIMIT_MAX_GENERATIONS :=
  rateLimiter_admission_bound sampleState .generate failEnv 0 0 0
    [(0, 0), (0, 0), (0, 0), (0, 0), (0, 0), (0, 0)] (by decide)

/-- A state whose store already holds five in-window timestamps. -/
def fullState : AppState :=
  { sampleState with store := [0, 0, 0, 0, 0], generationTimestamps := [0, 0, 0, 0, 0] }

/-- C3: a denied click has no side effect beyond the load itself: the
final state is exactly the loaded state (pruned log in memory and store,
status, failure counter, cancellation flag and stored result untouched),
no session record is produced, and the trace holds only the load's own
re-persist followed by the quota alert, so no generation call, no status
transition and no further store write happen. -/
theorem denied_click_no_side_effects (ty : ClickType) (env : GenEnv)
    (nowLoad nowPush : Int) (s : AppState)
    (h : RATE_LIMIT_MAX_GENERATIONS ≤ (pruneTimestamps s.store nowLoad).length) :
    (handleGenerationClick ty env nowLoad nowPush s).state = loadedState s nowLoad ∧
      (handleGenerationClick ty env nowLoad nowPush s).state.status = s.status ∧
      (handleGenerationClick ty env nowLoad nowPush s).state.failureCount = s.failureCount ∧
      (handleGenerationClick ty env nowLoad nowPush s).state.generationTimestamps =
        pruneTimestamps s.store nowLoad ∧
      (handleGenerationClick ty env nowLoad nowPush s).result = none ∧
      (handleGenerationClick ty env nowLoad nowPush s).events =
        [Event.setItem (pruneTimestamps s.store nowLoad), Event.alertQuota] := by
  refine ⟨?_, ?_, ?_, ?_, ?_, ?_⟩ <;> simp [handleGenerationClick, h, loadedState]

/-- C3 witness: a click on a full store at time 0 is denied without side
effects. -/
theorem denied_click_no_side_effects_witness :
    (handleGenerationClick .generate okEnv 0 0 fullState).state = loadedState fullState 0 ∧
      (handleGenerationClick .generate okEnv 0 0 fullState).state.status = fullState.status ∧
      (handleGenerationClick .generate okEnv 0 0 fullState).state.failureCount =
        fullState.failureCount ∧
      (handleGenerationClick .generate okEnv 0 0 fullState).state.generationTimestamps =
        pruneTimestamps fullState.store 0 ∧
      (handleGenerationClick .generate okEnv 0 0 fullState).result = none ∧
      (handleGenerationClick .generate okEnv 0 0 fullState).events =
        [Event.setItem (pruneTimestamps fullState.store 0), Event.alertQuota] :=
  denied_click_no_side_effects .generate okEnv 0 0 fullState (by decide)

/-- C4: on every admitted click, of either kind, the appended log is
persisted as the second event of the click, preceded only by the load's
re-persist of the pruned log, which is not a generation call; every
remote generation call therefore happens strictly after the quota was
consumed and persisted. -/
theorem admitted_click_persists_before_generation (ty : ClickType)
    (env : GenEnv) (nowLoad nowPush : Int) (s : AppState)
    (h : (pruneTimestamps s.store nowLoad).length < RATE_LIMIT_MAX_GENERATIONS) :
    (handleGenerationClick ty env nowLoad nowPush s).events =
        Event.setItem (pruneTimestamps s.store nowLoad) ::
          Event.setItem (pruneTimestamps s.store nowLoad ++ [nowPush]) ::
          (clickDispatch ty env (admittedState s nowLoad nowPush)).events ∧
      isGenCallEvent (Event.setItem (pruneTimestamps s.store nowLoad)) = false ∧
      (pruneTimestamps s.store nowLoad ++ [nowPush]).length =
        (pruneTimestamps s.store nowLoad).length + 1 := by
  have hne := Nat.not_le.mpr h
  exact ⟨by simp [handleGenerationClick, hne], rfl, by simp⟩

/-- C4 witness: an admitted regenerate click on the empty store persists
the appended log before its five failing generation calls. -/
theorem admitted_click_persists_before_generation_witness :
    (handleGenerationClick .regenerate failEnv 0 0 sampleState).events =
        Event.setItem (pruneTimestamps sampleState.store 0) ::
          Event.setItem (pruneTimestamps sampleState.store 0 ++ [0]) ::
          (clickDispatch .regenerate failEnv (admittedState sampleState 0 0)).events ∧
      isGenCallEvent (Event.setItem (pruneTimestamps sampleState.store 0)) = false ∧
      (pruneTimestamps sampleState.store 0 ++ [0]).length =
        (pruneTimestamps sampleState.store 0).length + 1 :=
  admitted_click_persists_before_generation .regenerate failEnv 0 0 sampleState (by decide)

/-- A state left behind by a terminated session: the cancellation flag is
still set (nothing but startGenerationProcess ever unsets it,
src/index.tsx line 540). -/
def stuckState : AppState :=
  { sampleState with isGenerationTerminated := true, status := .terminating }

/-- C7 (code bug): on the regenerate path the cancellation flag is never
reset.  With the flag left set by a previous terminated session and an
environment whose very first call would succeed, a regenerate click is
admitted, consumes and persists a quota slot, and then returns Terminated
with zero generation calls; the same click as a generate request resets
the flag (src/index.tsx line 540) and succeeds. -/
theorem regenerate_stale_flag_bug :
    (handleGenerationClick .regenerate okEnv 0 0 stuckState).result =
        some ⟨false, none, true⟩ ∧
      countGenCalls (handleGenerationClick .regenerate okEnv 0 0 stuckState).events = 0 ∧
      countVerifyCalls (handleGenerationClick .regenerate okEnv 0 0 stuckState).events = 0 ∧
      (handleGenerationClick .regenerate okEnv 0 0 stuckState).state.store = [0] ∧
      (handleGenerationClick .regenerate okEnv 0 0 stuckState).state.status = .terminating ∧
      (handleGenerationClick .generate okEnv 0 0 stuckState).result =
        some ⟨true, some "out", false⟩ := by
  decide

/-- A state carrying an accumulated advisory failure count of three. -/
def threeFailState : AppState :=
  { sampleState with failureCount := 3 }

/-- C9 counterexample: starting from failure count 3, an admitted initial
generate session whose five attempts all fail ends with the counter at 1,
not 4: startGenerationProcess resets the counter to zero at the start of
every initial session (src/index.tsx line 542), a reset the claim says
never happens outside upload and clear. -/
theorem failureCounter_session_reset_counterexample :
    (handleGenerationClick .generate failEnv 0 0 threeFailState).state.failureCount = 1 ∧
      (1 : Nat) ≠ 3 + 1 := by
  decide

/-- C9 (amended): the advisory failure counter is reset to zero at the
start of every admitted initial generate session, then incremented when
that session ends Rejected — so an initial session ends with counter 1 on
rejection and 0 otherwise; a regeneration session never changes it; it is
also reset to zero on a successful file upload and on explicit clear. -/
theorem failureCounter_dynamics (env : GenEnv) (nowLoad nowPush : Int)
    (s : AppState) (d : String)
    (hup : s.uploadedBase64Image.isSome = true)
    (hadm : (pruneTimestamps s.store nowLoad).length < RATE_LIMIT_MAX_GENERATIONS) :
    ((handleGenerationClick .generate env nowLoad nowPush s).state.failureCount =
        if (sessionRun env (resetSessionState (admittedState s nowLoad nowPush))).result.success = false ∧
            (sessionRun env (resetSessionState (admittedState s nowLoad nowPush))).result.terminated = false
          then 1 else 0) ∧
      (handleGenerationClick .regenerate env nowLoad nowPush s).state.failureCount =
        s.failureCount ∧
      (resetUI s).failureCount = 0 ∧
      (handleFileLoaded d s).failureCount = 0 := by
  have hne := Nat.not_le.mpr hadm
  obtain ⟨d0, hd⟩ := Option.isSome_iff_exists.mp hup
  have hd2 : (admittedState s nowLoad nowPush).uploadedBase64Image = some d0 := hd
  refine ⟨?_, ?_, rfl, rfl⟩
  · have e1 : (handleGenerationClick .generate env nowLoad nowPush s).state =
        (startGenerationProcess env (admittedState s nowLoad nowPush)).state := by
      unfold handleGenerationClick
      rw [if_neg hne]
      rfl
    have e2 : (startGenerationProcess env (admittedState s nowLoad nowPush)).state =
        (generateSingleView env false
          (resetSessionState (admittedState s nowLoad nowPush))).state := by
      unfold startGenerationProcess
      rw [hd2]
    rw [e1, e2, generateSingleView_failureCount]
    rcases hrej : (sessionRun env (resetSessionState (admittedState s nowLoad nowPush))).result.success with _ | _ <;>
      rcases hter : (sessionRun env (resetSessionState (admittedState s nowLoad nowPush))).result.terminated with _ | _ <;>
        simp [hrej, hter, resetSessionState]
  · have e1 : (handleGenerationClick .regenerate env nowLoad nowPush s).state =
        (generateSingleView env true (admittedState s nowLoad nowPush)).state := by
      unfold handleGenerationClick
      rw [if_neg hne]
      rfl
    rw [e1, generateSingleView_failureCount]
    have ha : (admittedState s nowLoad nowPush).failureCount = s.failureCount := rfl
    simp [ha]

/-- C9 witness: the amended dynamics at a concrete all-failing initial
session starting from the quiescent sample state. -/
theorem failureCounter_dynamics_witness :
    ((handleGenerationClick .generate failEnv 0 0 sampleState).state.failureCount =
        if (sessionRun failEnv (resetSessionState (admittedState sampleState 0 0))).result.success = false ∧
            (sessionRun failEnv (resetSessionState (admittedState sampleState 0 0))).result.terminated = false
          then 1 else 0) ∧
      (handleGenerationClick .regenerate failEnv 0 0 sampleState).state.failureCount =
        sampleState.failureCount ∧
      (resetUI sampleState).failureCount = 0 ∧
      (handleFileLoaded "x" sampleState).failureCount = 0 :=
  failureCounter_dynamics failEnv 0 0 sampleState "x" (by decide) (by decide)

end PortraitGen
